import Mathlib

/- Shallow embedding of the ensemble-docking engine of pyCADD:
   the console object in src/pyCADD/Dock/ensemble.py and the generic
   parallel task runner in src/pyCADD/utils/tool.py.  Machine-level
   concerns (actual multiprocessing scheduling, wall-clock alarms, the
   proprietary Schrodinger calls) are abstracted; the control flow,
   data handling and error behaviour of the Python code are modelled
   faithfully. -/

namespace PyCADD

/-- Python exception kinds raised by the modelled code paths. -/
inductive PyError where
  | typeError (msg : String)
  | runtimeError (msg : String)
  | fileNotFoundError (msg : String)
  | valueError (msg : String)
  deriving DecidableEq, Repr

/-- Modelled from the spec: class `GridFile` lives in pyCADD/Dock/common.py,
which is not under src/.  Spec section 3: a ReceptorGridRef is
(receptor_id, internal_ligand_id, file_path).  `ensemble.py` reads the
internal ligand id as `.ligand` in `_creat_mapping` (line 143) and as
`.internal_ligand` in `multi_dock` (line 315); both denote the
internal_ligand_id, stored here in the field `ligand`. -/
structure GridFile where
  pdbid : String
  ligand : String
  file_path : String
  deriving DecidableEq, Repr

/-- Modelled from the spec: the `internal_ligand` accessor of `GridFile`
returns the same internal_ligand_id as `ligand`. -/
def GridFile.internal_ligand (g : GridFile) : String := g.ligand

/-- Modelled from the spec: class `LigandFile` lives in pyCADD/Dock/common.py,
which is not under src/.  Spec section 3: a LigandRef is
(ligand_name, file_path). -/
structure LigandFile where
  ligand_name : String
  file_path : String
  deriving DecidableEq, Repr

/-- Modelled from the spec: class `DockResultFile` lives in
pyCADD/Dock/common.py, which is not under src/.  Spec section 3: a
DockResultRef is (receptor_id, internal_ligand_id, ligand_name, file_path);
`multi_dock` (line 316) reads the fields `pdbid`, `internal_ligand_name`
and `docking_ligand_name`. -/
structure DockResultFile where
  pdbid : String
  internal_ligand_name : String
  docking_ligand_name : String
  file_path : String
  deriving DecidableEq, Repr

/-- A (receptor_id, internal_ligand_id, ligand_name) key triple. -/
abbrev Triple := String × String × String

/-- The key triple `(grid_file.pdbid, grid_file.ligand, ligand_file.ligand_name)`
tested against the failed list in `_Console._creat_mapping` (ensemble.py
line 143). -/
def mappingKey (g : GridFile) (l : LigandFile) : Triple :=
  (g.pdbid, g.ligand, l.ligand_name)

/-- `_Console._creat_mapping` (ensemble.py lines 123-149): nested loop over
grid files then ligand files, skipping a pair when its key triple is in the
failed list; a `None` failed list is replaced by the empty list. -/
def _creat_mapping (grid_file_list : List GridFile) (ligand_file_list : List LigandFile)
    (failed_list : Option (List Triple) := none) : List (GridFile × LigandFile) :=
  let failed := failed_list.getD []
  grid_file_list.foldl (fun acc grid_file =>
    ligand_file_list.foldl (fun acc2 ligand_file =>
      if mappingKey grid_file ligand_file ∈ failed then acc2
      else acc2 ++ [(grid_file, ligand_file)]) acc) []

/-- The full cross product of grids and ligands in nested iteration order. -/
def crossMapping (grid_file_list : List GridFile) (ligand_file_list : List LigandFile) :
    List (GridFile × LigandFile) :=
  grid_file_list.flatMap fun g => ligand_file_list.map fun l => (g, l)

/-- The key triples of the full cross product, in nested iteration order. -/
def crossKeys (grid_file_list : List GridFile) (ligand_file_list : List LigandFile) :
    List Triple :=
  grid_file_list.flatMap fun g => ligand_file_list.map fun l => mappingKey g l

section MappingLemmas

lemma creat_mapping_inner (g : GridFile) (L : List LigandFile) (F : List Triple)
    (acc : List (GridFile × LigandFile)) :
    L.foldl (fun acc2 ligand_file =>
      if mappingKey g ligand_file ∈ F then acc2
      else acc2 ++ [(g, ligand_file)]) acc
      = acc ++ (L.filter fun l => decide (mappingKey g l ∉ F)).map fun l => (g, l) := by
  induction L generalizing acc with
  | nil => simp
  | cons l t ih =>
    by_cases h : mappingKey g l ∈ F <;> simp [h, ih]

lemma creat_mapping_outer (G : List GridFile) (L : List LigandFile) (F : List Triple)
    (acc : List (GridFile × LigandFile)) :
    G.foldl (fun acc grid_file =>
      L.foldl (fun acc2 ligand_file =>
        if mappingKey grid_file ligand_file ∈ F then acc2
        else acc2 ++ [(grid_file, ligand_file)]) acc) acc
      = acc ++ (G.flatMap fun g =>
          (L.filter fun l => decide (mappingKey g l ∉ F)).map fun l => (g, l)) := by
  induction G generalizing acc with
  | nil => simp
  | cons g t ih =>
    rw [List.foldl_cons, creat_mapping_inner, ih]
    simp

lemma creat_mapping_eq_flatMap (G : List GridFile) (L : List LigandFile) (F : List Triple) :
    _creat_mapping G L (some F)
      = G.flatMap fun g => (L.filter fun l => decide (mappingKey g l ∉ F)).map fun l => (g, l) := by
  show G.foldl _ [] = _
  simpa using creat_mapping_outer G L F []

lemma creat_mapping_none_eq (G : List GridFile) (L : List LigandFile) :
    _creat_mapping G L none = _creat_mapping G L (some []) := rfl

lemma creat_mapping_empty_excl (G : List GridFile) (L : List LigandFile) :
    _creat_mapping G L (some []) = crossMapping G L := by
  rw [creat_mapping_eq_flatMap, crossMapping]
  refine List.flatMap_congr ?_
  intro g _
  rw [List.filter_eq_self.mpr]
  intro l _
  simp

lemma crossMapping_length (G : List GridFile) (L : List LigandFile) :
    (crossMapping G L).length = G.length * L.length := by
  induction G with
  | nil => simp [crossMapping]
  | cons g t ih =>
    simp only [crossMapping, List.flatMap_cons, List.length_append, List.length_map,
      List.length_cons] at *
    rw [ih]
    ring

lemma crossMapping_get? (G : List GridFile) (L : List LigandFile)
    (i j : Nat) (hi : i < G.length) (hj : j < L.length) :
    (crossMapping G L).get? (i * L.length + j) = some (G.get ⟨i, hi⟩, L.get ⟨j, hj⟩) := by
  induction G generalizing i with
  | nil => simp at hi
  | cons g t ih =>
    cases i with
    | zero =>
      simp only [crossMapping, List.flatMap_cons]
      rw [Nat.zero_mul, Nat.zero_add, List.get?_append (by simpa using hj)]
      simp [List.get?_map, List.get?_eq_get hj]
    | succ i =>
      have hi' : i < t.length := by simpa using hi
      have harith : (i + 1) * L.length + j = L.length + (i * L.length + j) := by ring
      simp only [crossMapping, List.flatMap_cons]
      rw [harith, List.get?_append_right (by simp)]
      simp only [List.length_map, Nat.add_sub_cancel_left]
      exact ih i hi'

lemma creat_mapping_mem (G : List GridFile) (L : List LigandFile) (F : List Triple)
    (g : GridFile) (l : LigandFile) :
    (g, l) ∈ _creat_mapping G L (some F) ↔ g ∈ G ∧ l ∈ L ∧ mappingKey g l ∉ F := by
  rw [creat_mapping_eq_flatMap]
  simp only [List.mem_flatMap, List.mem_map, List.mem_filter, Prod.mk.injEq,
    decide_eq_true_eq]
  constructor
  · rintro ⟨a, ha, b, ⟨hb, hbF⟩, rfl, rfl⟩
    exact ⟨ha, hb, hbF⟩
  · rintro ⟨hg, hl, hF⟩
    exact ⟨g, hg, l, ⟨hl, hF⟩, rfl, rfl⟩

lemma countP_not_mem_add (L : List LigandFile) (g : GridFile) (F : List Triple) :
    (L.filter fun l => decide (mappingKey g l ∉ F)).length
      + (L.map fun l => mappingKey g l).countP (fun k => decide (k ∈ F)) = L.length := by
  rw [← List.countP_eq_length_filter, List.countP_map]
  induction L with
  | nil => simp
  | cons l t ih =>
    by_cases h : mappingKey g l ∈ F <;>
      simp only [List.countP_cons, Function.comp_apply, h, List.length_cons] <;>
      simp_all <;> omega

lemma creat_mapping_length_add (G : List GridFile) (L : List LigandFile) (F : List Triple) :
    (_creat_mapping G L (some F)).length
      + (crossKeys G L).countP (fun k => decide (k ∈ F)) = G.length * L.length := by
  rw [creat_mapping_eq_flatMap]
  induction G with
  | nil => simp [crossKeys]
  | cons g t ih =>
    simp only [List.flatMap_cons, crossKeys, List.length_append, List.countP_append,
      List.length_map, List.length_cons] at *
    have h1 := countP_not_mem_add L g F
    rw [Nat.succ_mul]
    omega

end MappingLemmas

/-- Embedding of Python `str.split(c)` for a one-character separator:
split the character list on the separator. -/
def pySplitChar (c : Char) (s : String) : List String :=
  (s.data.splitOn c).map String.mk

/-- Embedding of Python `c.join(strings)` for a one-character separator. -/
def pyJoinChar (c : Char) (ls : List String) : String :=
  String.mk (List.intercalate [c] (ls.map String.data))

/-- Embedding of Python `str.splitlines()` for contents whose only line
terminator is the newline character: split on the newline character and,
when the text ends with a newline (equivalently, when the final split part
is empty), drop that final empty part; the empty string yields no lines. -/
def pySplitlines (s : String) : List String :=
  if s.data.isEmpty then []
  else
    let parts := (s.data.splitOn '\n').map String.mk
    if parts.getLast? = some "" then parts.dropLast else parts

/-- The line `f'{pdbid},{internal_ligand},{ligand_name}'` built for a
mapping entry in `_Console.multi_dock` (ensemble.py line 315). -/
def renderMappingItem (p : GridFile × LigandFile) : String :=
  p.1.pdbid ++ "," ++ p.1.internal_ligand ++ "," ++ p.2.ligand_name

/-- The line `f'{pdbid},{internal_ligand_name},{docking_ligand_name}'`
built for a dock result in `_Console.multi_dock` (ensemble.py line 316). -/
def renderDockResult (d : DockResultFile) : String :=
  d.pdbid ++ "," ++ d.internal_ligand_name ++ "," ++ d.docking_ligand_name

/-- `self.docking_failed_list = list(set(total_result) - set(success_result))`
in `_Console.multi_dock` (ensemble.py line 317), modelled as the finite set
of line strings (the Python list's order is arbitrary). -/
def docking_failed_list (mapping : List (GridFile × LigandFile))
    (dock_file_list : List DockResultFile) : Finset String :=
  (mapping.map renderMappingItem).toFinset \ (dock_file_list.map renderDockResult).toFinset

/-- The effect of `_Console.multi_dock` (ensemble.py lines 319-321) on the
per-precision ledger files `docking_failed_<precision>.csv`, modelled at the
set-of-lines level: when the newly computed failed list is non-empty the file
for the used precision is overwritten with exactly that set, otherwise no
file is touched. -/
def ledger_after_multi_dock (ledgers : String → Option (Finset String)) (precision : String)
    (mapping : List (GridFile × LigandFile)) (dock_file_list : List DockResultFile) :
    String → Option (Finset String) :=
  let failed := docking_failed_list mapping dock_file_list
  if failed = ∅ then ledgers
  else fun p => if p = precision then some failed else ledgers p

/-- One line of the ledger file: `receptor_id,internal_ligand_id,ligand_name`
(no header, comma separated, no quoting). -/
def renderTriple (t : Triple) : String :=
  t.1 ++ "," ++ t.2.1 ++ "," ++ t.2.2

/-- The full content written to `docking_failed_<precision>.csv` by
`_Console.multi_dock` (ensemble.py line 321): `'\n'.join(docking_failed_list)`,
for a given enumeration order of the failed records. -/
def ledgerContent (failed : List Triple) : String :=
  pyJoinChar '\n' (failed.map renderTriple)

/-- `tuple(line.split(','))` followed by the three-name unpacking in
`_Console._get_failed_list` (ensemble.py lines 118-119); a line that does not
split into exactly three fields raises ValueError at the unpacking. -/
def parse_failed_line (line : String) : Except PyError Triple :=
  match pySplitChar ',' line with
  | [a, b, c] => .ok (a, b, c)
  | _ => .error (.valueError "not enough values to unpack")

/-- Sequencing of a fallible operation over a list, propagating the first
raised exception: the behaviour of a Python list comprehension. -/
def exceptMapM (f : α → Except PyError β) : List α → Except PyError (List β)
  | [] => .ok []
  | x :: xs =>
    match f x with
    | .error e => .error e
    | .ok y =>
      match exceptMapM f xs with
      | .error e => .error e
      | .ok ys => .ok (y :: ys)

/-- `_Console._get_failed_list` (ensemble.py lines 108-121).  The argument is
the content of `docking_failed_<precision>.csv`, or `none` when that file
does not exist; in the latter case the Python function returns `None`
(falling through the `if os.path.exists` check), modelled as `.ok none`. -/
def _get_failed_list (content : Option String) : Except PyError (Option (List Triple)) :=
  match content with
  | none => .ok none
  | some s =>
    match exceptMapM parse_failed_line (pySplitlines s) with
    | .error e => .error e
    | .ok triples => .ok (some triples)

/-- `multiprocssing_run` (tool.py lines 112-148).  One item is submitted per
element of the iterable; `success_handler` appends the result to `returns`
and advances the progress counter, `error_handler` logs the exception at
debug level and advances the same counter, so a raising item (including a
`TimeoutError` from `_func_timeout`) is dropped without aborting the batch.
The operation is modelled as already fallible (`Except`), covering both an
exception raised inside the operation and the expiry of the per-item alarm;
pool scheduling is abstracted by processing items in submission order.
Returns (returns, completed count, debug log). -/
def multiprocssing_run {α β : Type} (op : α → Except String β) (iterable : List α) :
    List β × Nat × List String :=
  iterable.foldl (fun acc item =>
    match op item with
    | .ok result => (acc.1 ++ [result], acc.2.1 + 1, acc.2.2)
    | .error e => (acc.1, acc.2.1 + 1, acc.2.2 ++ [e])) ([], 0, [])

/-- The successful results of a batch, in order. -/
def runSuccesses {α β : Type} (op : α → Except String β) (items : List α) : List β :=
  items.filterMap fun a => (op a).toOption

/-- The logged exceptions of a batch, in order. -/
def runFailures {α β : Type} (op : α → Except String β) (items : List α) : List String :=
  items.filterMap fun a =>
    match op a with
    | .error e => some e
    | .ok _ => none

section RunnerLemmas

lemma except_toOption_ok {ε β : Type} (b : β) : (Except.ok b : Except ε β).toOption = some b := rfl

lemma except_toOption_error {ε β : Type} (e : ε) : (Except.error e : Except ε β).toOption = none := rfl

lemma except_isOk_ok {ε β : Type} (b : β) : (Except.ok b : Except ε β).isOk = true := rfl

lemma except_isOk_error {ε β : Type} (e : ε) : (Except.error e : Except ε β).isOk = false := rfl

lemma triple_ext {β : Type} {a b : List β × Nat × List String}
    (h1 : a.1 = b.1) (h2 : a.2.1 = b.2.1) (h3 : a.2.2 = b.2.2) : a = b := by
  obtain ⟨x, y, z⟩ := a
  obtain ⟨x2, y2, z2⟩ := b
  simp_all

lemma multiprocssing_run_acc {α β : Type} (op : α → Except String β) (items : List α)
    (acc : List β × Nat × List String) :
    items.foldl (fun acc item =>
      match op item with
      | .ok result => (acc.1 ++ [result], acc.2.1 + 1, acc.2.2)
      | .error e => (acc.1, acc.2.1 + 1, acc.2.2 ++ [e])) acc
      = (acc.1 ++ runSuccesses op items, acc.2.1 + items.length, acc.2.2 ++ runFailures op items) := by
  induction items generalizing acc with
  | nil => simp [runSuccesses, runFailures]
  | cons x xs ih =>
    rw [List.foldl_cons]
    cases hx : op x with
    | ok b =>
      simp only [hx]
      rw [ih]
      refine triple_ext ?_ ?_ ?_ <;>
        simp [runSuccesses, runFailures, List.filterMap_cons, hx, except_toOption_ok,
          except_toOption_error] <;> omega
    | error e =>
      simp only [hx]
      rw [ih]
      refine triple_ext ?_ ?_ ?_ <;>
        simp [runSuccesses, runFailures, List.filterMap_cons, hx, except_toOption_ok,
          except_toOption_error] <;> omega

lemma multiprocssing_run_eq {α β : Type} (op : α → Except String β) (items : List α) :
    multiprocssing_run op items
      = (runSuccesses op items, items.length, runFailures op items) := by
  show items.foldl _ ([], 0, []) = _
  rw [multiprocssing_run_acc]
  simp

lemma runSuccesses_length {α β : Type} (op : α → Except String β) (items : List α) :
    (runSuccesses op items).length = items.countP fun a => (op a).isOk := by
  induction items with
  | nil => rfl
  | cons x xs ih =>
    simp only [runSuccesses, List.filterMap_cons, List.countP_cons] at ih ⊢
    cases hx : op x <;>
      simp [hx, except_toOption_ok, except_toOption_error, except_isOk_ok, except_isOk_error, ih]

lemma runFailures_length {α β : Type} (op : α → Except String β) (items : List α) :
    (runFailures op items).length = items.countP fun a => !(op a).isOk := by
  induction items with
  | nil => rfl
  | cons x xs ih =>
    simp only [runFailures, List.filterMap_cons, List.countP_cons] at ih ⊢
    cases hx : op x <;>
      simp [hx, except_toOption_ok, except_toOption_error, except_isOk_ok, except_isOk_error, ih]

lemma countP_isOk_add {α β : Type} (op : α → Except String β) (items : List α) :
    (items.countP fun a => (op a).isOk) + (items.countP fun a => !(op a).isOk)
      = items.length := by
  induction items with
  | nil => rfl
  | cons x xs ih =>
    simp only [List.countP_cons, List.length_cons]
    cases hx : op x <;>
      simp [hx, except_isOk_ok, except_isOk_error] <;> omega

end RunnerLemmas

/-- `NUM_PARALLEL = multiprocessing.cpu_count() // 4 * 3` (tool.py line 23),
as a function of the logical core count. -/
def NUM_PARALLEL_of (cpu_count : Nat) : Nat :=
  cpu_count / 4 * 3

/-- Embedding of `os.path.basename` for slash-separated paths. -/
def pyBasename (s : String) : String :=
  (pySplitChar '/' s).getLastD ""

/-- `os.path.basename(path).split('.')[0]`, the ligand name derived from a
ligand file path (`_Console.multi_extract_data`, ensemble.py line 331). -/
def pathStem (p : String) : String :=
  (pySplitChar '.' (pyBasename p)).headD ""

/-- Modelled from the spec: `LigandFile(path)` (pyCADD/Dock/common.py is not
under src/) carries (ligand_name, file_path); the ligand name of a split
ligand file is its file stem, matching the name derivation used in
`multi_extract_data` (ensemble.py line 331). -/
def ligandFileOfPath (p : String) : LigandFile :=
  ⟨pathStem p, p⟩

/-- The in-memory stage results of `_Console` (ensemble.py lines 72-86):
each field is `None` until the producing stage has run. `pairs_list` is set at
construction from the input file. -/
structure ConsoleState where
  pairs_list : List (String × String)
  minimized_file_list : Option (List String)
  grid_file_list : Option (List GridFile)
  ligand_path_list : Option (List String)
  ligand_file_list : Option (List LigandFile)
  mapping : Option (List (GridFile × LigandFile))
  dock_file_list : Option (List DockResultFile)

/-- `_Console.multi_grid_generate` (ensemble.py lines 204-233): raises
FileNotFoundError when `minimized_file_list` is still `None`, otherwise
stores the grid files produced by the parallel runner (the Schrodinger call
itself is external, so the produced list is a parameter). -/
def multi_grid_generate (st : ConsoleState) (new_grids : List GridFile) :
    Except PyError ConsoleState :=
  match st.minimized_file_list with
  | none => .error (.fileNotFoundError "No minimized file found. Please run minimize first.")
  | some _ => .ok { st with grid_file_list := some new_grids }

/-- `_Console.creat_mapping` (ensemble.py lines 270-285): guards on
`ligand_path_list` and `grid_file_list`, then builds `ligand_file_list` and
the mapping, excluding the failed list loaded from the ledger content. -/
def creat_mapping (st : ConsoleState) (failed_content : Option String) :
    Except PyError ConsoleState :=
  match st.ligand_path_list with
  | none => .error (.runtimeError "Please run ligand_split first.")
  | some ligand_path_list =>
    match st.grid_file_list with
    | none => .error (.runtimeError "Please run grid_generate first.")
    | some grid_file_list =>
      match _get_failed_list failed_content with
      | .error e => .error e
      | .ok failed =>
        let ligand_file_list := ligand_path_list.map ligandFileOfPath
        .ok { st with
              ligand_file_list := some ligand_file_list,
              mapping := some (_creat_mapping grid_file_list ligand_file_list failed) }

/-- `_Console.multi_dock` (ensemble.py lines 287-321).  Before the
`self.mapping is None` guard of line 309, the debug logging of line 304
evaluates `len(self.grid_file_list) * len(self.ligand_file_list)`, which
raises TypeError when either list is still `None`.  The dock results
produced by the parallel runner are a parameter (the Schrodinger call is
external); the reconciliation of lines 314-321 stores the failed set and
conditionally overwrites the per-precision ledger. -/
def multi_dock (st : ConsoleState) (dock_results : List DockResultFile)
    (ledgers : String → Option (Finset String)) (precision : String) :
    Except PyError (ConsoleState × (String → Option (Finset String))) :=
  match st.grid_file_list with
  | none => .error (.typeError "object of type NoneType has no len")
  | some _ =>
    match st.ligand_file_list with
    | none => .error (.typeError "object of type NoneType has no len")
    | some _ =>
      match st.mapping with
      | none => .error (.runtimeError "Please run creat_mapping first.")
      | some mapping =>
        .ok ({ st with dock_file_list := some dock_results },
             ledger_after_multi_dock ledgers precision mapping dock_results)

/-- The dock result path
`os.path.join(base_dock_save_dir, pdbid, f'{pdbid}_{ligid}_glide-dock_{ligand_name}_{precision}.maegz')`
(ensemble.py line 342). -/
def dockfile_path (base_dock_save_dir pdbid ligid ligand_name precision : String) : String :=
  base_dock_save_dir ++ "/" ++ pdbid ++ "/" ++ pdbid ++ "_" ++ ligid ++ "_glide-dock_"
    ++ ligand_name ++ "_" ++ precision ++ ".maegz"

/-- `_Console.multi_extract_data` (ensemble.py lines 323-349), up to the
point where the dock result file list is handed to the parallel runner
(`extra_docking_data` is external): returns the dock result file paths.
When `dock_file_list` is `None` it is rebuilt from `pairs_list` and the
ligand names, testing each key triple for membership in the value returned
by `_get_failed_list` — a test that raises TypeError when that value is
`None` (Python `in None`). -/
def multi_extract_data (st : ConsoleState) (failed_content : Option String)
    (base_dock_save_dir precision : String) : Except PyError (List String) :=
  match st.dock_file_list with
  | some dock_file_list => .ok (dock_file_list.map DockResultFile.file_path)
  | none =>
    match st.ligand_path_list with
    | none => .error (.runtimeError "Please run ligand_split first.")
    | some ligand_path_list =>
      let ligand_name_list := ligand_path_list.map pathStem
      match _get_failed_list failed_content with
      | .error e => .error e
      | .ok _failed_list =>
        st.pairs_list.foldlM (fun acc pr =>
          ligand_name_list.foldlM (fun acc2 ligand_name =>
            match _failed_list with
            | none => .error (.typeError "argument of type NoneType is not iterable")
            | some fl =>
              if (pr.1, pr.2, ligand_name) ∈ fl then Except.ok acc2
              else Except.ok (acc2 ++ [dockfile_path base_dock_save_dir pr.1 pr.2 ligand_name precision]))
            acc) []

/-- One structure contained in a multi-structure maestro ligand file, as
read by `split_ligand` (ensemble.py lines 41-52): its `s_m_title` property
(always present on maestro structures, modelled as its own field) and the
remaining property dictionary, from which activity values are looked up. -/
structure PyStructure where
  s_m_title : String
  property : List (String × String)
  deriving DecidableEq, Repr

/-- `[f'{_type}_user_{_label}' for _type in ('b', 's') for _label in ('Activity', 'activity')]`
(ensemble.py line 40). -/
def activity_label_name : List String :=
  ["b_user_Activity", "b_user_activity", "s_user_Activity", "s_user_activity"]

/-- The activity lookup of ensemble.py lines 45-51: the first activity label
present in the structure's property dictionary, else the empty string. -/
def st_activity (st : PyStructure) : String :=
  (activity_label_name.findSome? fun lbl => st.property.lookup lbl).getD ""

/-- Decimal digit characters of `n`, most significant first, computed with
explicit fuel (the fuel `n + 1` used by `pyStr` always suffices). -/
def decimalAuxCore : Nat → Nat → List Char
  | 0, _ => []
  | fuel + 1, n =>
    if n < 10 then [Nat.digitChar n]
    else decimalAuxCore fuel (n / 10) ++ [Nat.digitChar (n % 10)]

/-- Embedding of Python `str(n)` / `f'{n}'` for a non-negative integer:
the standard decimal representation without leading zeros. -/
def pyStr (n : Nat) : String :=
  String.mk (decimalAuxCore (n + 1) n)

/-- `st_name = f"{index}-{structure.property['s_m_title']}"`
(ensemble.py line 42). -/
def st_name (index : Nat) (st : PyStructure) : String :=
  pyStr index ++ "-" ++ st.s_m_title

/-- The `label_list` accumulated by the `for index, structure in enumerate(...)`
loop of `split_ligand` (ensemble.py lines 41-52), starting from a given
index: one `f'{st_name},{st_activity}'` entry per structure. -/
def label_list_from (index : Nat) : List PyStructure → List String
  | [] => []
  | st :: rest => (st_name index st ++ "," ++ st_activity st) :: label_list_from (index + 1) rest

/-- The complete `label_list` of one `split_ligand` run. -/
def label_list (structures : List PyStructure) : List String :=
  label_list_from 0 structures

/-- The structure labels (`st_name` values) assigned during one
`split_ligand` run, starting from a given index. -/
def run_labels_from (index : Nat) : List PyStructure → List String
  | [] => []
  | st :: rest => st_name index st :: run_labels_from (index + 1) rest

/-- The structure labels of one `split_ligand` run. -/
def run_labels (structures : List PyStructure) : List String :=
  run_labels_from 0 structures

/-- The content written to `<ligand_save_dir>/label.csv` by `split_ligand`
(ensemble.py lines 61-62): `'\n'.join(label_list)`. -/
def label_csv (structures : List PyStructure) : String :=
  pyJoinChar '\n' (label_list structures)

section DecimalLemmas

/-- Numeric value a digit list parses back to (base ten, ASCII digits). -/
def parseNatChars (l : List Char) : Nat :=
  l.foldl (fun a c => 10 * a + (c.toNat - 48)) 0

lemma digitChar_isDigit {d : Nat} (h : d < 10) : (Nat.digitChar d).isDigit = true := by
  interval_cases d <;> decide

lemma digitChar_val {d : Nat} (h : d < 10) : (Nat.digitChar d).toNat - 48 = d := by
  interval_cases d <;> decide

lemma parseNatChars_append_digit (l : List Char) (c : Char) :
    parseNatChars (l ++ [c]) = 10 * parseNatChars l + (c.toNat - 48) := by
  simp [parseNatChars, List.foldl_append]

lemma decimalAuxCore_digits : ∀ fuel n : Nat, ∀ c ∈ decimalAuxCore fuel n, c.isDigit = true := by
  intro fuel
  induction fuel with
  | zero => intro n c hc; simp [decimalAuxCore] at hc
  | succ fuel ih =>
    intro n c hc
    rw [decimalAuxCore] at hc
    by_cases h : n < 10
    · simp [h] at hc
      subst hc
      exact digitChar_isDigit h
    · simp [h] at hc
      rcases hc with hc | hc
      · exact ih _ c hc
      · subst hc
        exact digitChar_isDigit (Nat.mod_lt _ (by omega))

lemma decimalAuxCore_parse : ∀ fuel n : Nat, n < fuel →
    parseNatChars (decimalAuxCore fuel n) = n := by
  intro fuel
  induction fuel with
  | zero => intro n h; omega
  | succ fuel ih =>
    intro n h
    rw [decimalAuxCore]
    by_cases hn : n < 10
    · simp only [hn, if_true]
      have : parseNatChars [Nat.digitChar n] = (Nat.digitChar n).toNat - 48 := by
        simp [parseNatChars]
      rw [this, digitChar_val hn]
    · simp only [hn, if_false]
      rw [parseNatChars_append_digit]
      have hdiv : n / 10 < fuel := by
        have : n / 10 < n := Nat.div_lt_self (by omega) (by omega)
        omega
      rw [ih _ hdiv, digitChar_val (Nat.mod_lt _ (by omega))]
      omega

lemma decimalAuxCore_ne_nil (fuel n : Nat) (h : fuel ≠ 0) : decimalAuxCore fuel n ≠ [] := by
  cases fuel with
  | zero => omega
  | succ fuel =>
    rw [decimalAuxCore]
    by_cases hn : n < 10 <;> simp [hn]

lemma pyStr_inj {m n : Nat} (h : pyStr m = pyStr n) : m = n := by
  have hd : decimalAuxCore (m + 1) m = decimalAuxCore (n + 1) n := congrArg String.data h
  have hm := decimalAuxCore_parse (m + 1) m (by omega)
  have hn := decimalAuxCore_parse (n + 1) n (by omega)
  rw [hd] at hm
  omega

lemma pyStr_digits (n : Nat) : ∀ c ∈ (pyStr n).data, c.isDigit = true :=
  fun c hc => decimalAuxCore_digits (n + 1) n c hc

lemma isDigit_ne_dash {c : Char} (h : c.isDigit = true) : (c != '-') = true := by
  have : c ≠ '-' := by
    intro he
    subst he
    simp at h
  simpa using this

lemma takeWhile_append_sep {p : Char → Bool} (l1 l2 : List Char) (m : Char)
    (h1 : ∀ c ∈ l1, p c = true) (hm : p m = false) :
    (l1 ++ m :: l2).takeWhile p = l1 := by
  induction l1 with
  | nil => simp [List.takeWhile_cons, hm]
  | cons a t ih =>
    have ha := h1 a (by simp)
    simp only [List.cons_append, List.takeWhile_cons, ha, if_true]
    rw [ih fun c hc => h1 c (by simp [hc])]

lemma st_name_index_inj {i j : Nat} {a b : PyStructure}
    (h : st_name i a = st_name j b) : i = j := by
  have hd : (pyStr i).data ++ '-' :: a.s_m_title.data
      = (pyStr j).data ++ '-' :: b.s_m_title.data := by
    have := congrArg String.data h
    simpa [st_name, String.data_append] using this
  have htw : ((pyStr i).data ++ '-' :: a.s_m_title.data).takeWhile (· != '-')
      = (pyStr i).data :=
    takeWhile_append_sep _ _ _ (fun c hc => isDigit_ne_dash (pyStr_digits i c hc)) (by decide)
  have htw2 : ((pyStr j).data ++ '-' :: b.s_m_title.data).takeWhile (· != '-')
      = (pyStr j).data :=
    takeWhile_append_sep _ _ _ (fun c hc => isDigit_ne_dash (pyStr_digits j c hc)) (by decide)
  have : (pyStr i).data = (pyStr j).data := by
    rw [← htw, ← htw2, hd]
  exact pyStr_inj (by apply String.ext; exact this)

end DecimalLemmas

section LabelLemmas

lemma label_list_from_length (k : Nat) (sts : List PyStructure) :
    (label_list_from k sts).length = sts.length := by
  induction sts generalizing k with
  | nil => rfl
  | cons st rest ih => simp [label_list_from, ih]

lemma label_list_from_get? (k i : Nat) (sts : List PyStructure) (st : PyStructure)
    (h : sts.get? i = some st) :
    (label_list_from k sts).get? i = some (st_name (k + i) st ++ "," ++ st_activity st) := by
  induction sts generalizing k i with
  | nil => simp at h
  | cons hd rest ih =>
    cases i with
    | zero =>
      simp at h
      subst h
      simp [label_list_from]
    | succ i =>
      simp only [List.get?_cons_succ] at h
      simp only [label_list_from, List.get?_cons_succ]
      rw [ih (k + 1) i h, show k + 1 + i = k + (i + 1) by omega]

lemma run_labels_from_mem (k : Nat) (sts : List PyStructure) (x : String)
    (h : x ∈ run_labels_from k sts) : ∃ j st, k ≤ j ∧ x = st_name j st := by
  induction sts generalizing k with
  | nil => simp [run_labels_from] at h
  | cons hd rest ih =>
    simp only [run_labels_from, List.mem_cons] at h
    rcases h with h | h
    · exact ⟨k, hd, Nat.le_refl k, h⟩
    · obtain ⟨j, st, hj, hx⟩ := ih (k + 1) h
      exact ⟨j, st, by omega, hx⟩

lemma run_labels_from_nodup (k : Nat) (sts : List PyStructure) :
    (run_labels_from k sts).Nodup := by
  induction sts generalizing k with
  | nil => simp [run_labels_from]
  | cons hd rest ih =>
    simp only [run_labels_from, List.nodup_cons]
    refine ⟨?_, ih (k + 1)⟩
    intro hmem
    obtain ⟨j, st, hj, hx⟩ := run_labels_from_mem (k + 1) rest _ hmem
    have : k = j := st_name_index_inj hx
    omega

end LabelLemmas

/-- A ledger field is well formed when it contains neither the comma
separator nor a newline (spec section 4.2: fields must not contain commas). -/
def fieldOk (s : String) : Prop :=
  ',' ∉ s.data ∧ '\n' ∉ s.data

/-- All three fields of a failure record are well formed. -/
def tripleOk (t : Triple) : Prop :=
  fieldOk t.1 ∧ fieldOk t.2.1 ∧ fieldOk t.2.2

instance (s : String) : Decidable (fieldOk s) := by
  unfold fieldOk
  infer_instance

instance (t : Triple) : Decidable (tripleOk t) := by
  unfold tripleOk
  infer_instance

section RoundTripLemmas

lemma string_mk_data (s : String) : String.mk s.data = s := rfl

lemma intercalate_char_cons_cons (x : Char) (A B : List Char) (rest : List (List Char)) :
    List.intercalate [x] (A :: B :: rest) = A ++ x :: List.intercalate [x] (B :: rest) := by
  simp [List.intercalate, List.intersperse]

lemma intercalate_char_single (x : Char) (A : List Char) :
    List.intercalate [x] [A] = A := by
  simp [List.intercalate]

lemma intercalate_char_three (x : Char) (A B C : List Char) :
    List.intercalate [x] [A, B, C] = A ++ x :: (B ++ x :: C) := by
  rw [intercalate_char_cons_cons, intercalate_char_cons_cons, intercalate_char_single]

lemma intercalate_char_ne_nil (x : Char) (A : List Char) (rest : List (List Char))
    (hA : A ≠ []) : List.intercalate [x] (A :: rest) ≠ [] := by
  cases rest with
  | nil => simpa [intercalate_char_single] using hA
  | cons B r =>
    rw [intercalate_char_cons_cons]
    intro h
    rcases List.append_eq_nil.mp h with ⟨h1, h2⟩
    exact List.cons_ne_nil _ _ h2

lemma pyJoinChar_data (c : Char) (ls : List String) :
    (pyJoinChar c ls).data = List.intercalate [c] (ls.map String.data) := rfl

lemma pySplitlines_join (lines : List String)
    (hne : ∀ l ∈ lines, l ≠ "")
    (hnl : ∀ l ∈ lines, '\n' ∉ l.data) :
    pySplitlines (pyJoinChar '\n' lines) = lines := by
  cases lines with
  | nil =>
    simp [pySplitlines, pyJoinChar, List.intercalate]
  | cons l0 rest =>
    have hsplit : ((pyJoinChar '\n' (l0 :: rest)).data.splitOn '\n')
        = (l0 :: rest).map String.data := by
      rw [pyJoinChar_data]
      refine List.splitOn_intercalate _ '\n' ?_ (by simp)
      intro l hl
      simp only [List.mem_map] at hl
      obtain ⟨s, hs, rfl⟩ := hl
      exact hnl s hs
    have hl0 : l0.data ≠ [] := by
      intro h
      exact hne l0 (by simp) (String.ext h)
    have hnonempty : (pyJoinChar '\n' (l0 :: rest)).data.isEmpty = false := by
      rw [pyJoinChar_data]
      simp only [List.map_cons]
      have := intercalate_char_ne_nil '\n' l0.data (rest.map String.data) hl0
      cases hi : List.intercalate ['\n'] (l0.data :: rest.map String.data) with
      | nil => exact absurd hi this
      | cons a b => simp
    have hparts : ((pyJoinChar '\n' (l0 :: rest)).data.splitOn '\n').map String.mk
        = l0 :: rest := by
      rw [hsplit, List.map_map]
      have : (String.mk ∘ String.data) = id := funext string_mk_data
      rw [this, List.map_id]
    rw [pySplitlines, hnonempty]
    simp only [Bool.false_eq_true, if_false, hparts]
    have hlast : (l0 :: rest).getLast? ≠ some "" := by
      intro hc
      exact hne _ (List.mem_of_mem_getLast? hc) rfl
    rw [if_neg hlast]

lemma renderTriple_data (t : Triple) :
    (renderTriple t).data = t.1.data ++ ',' :: (t.2.1.data ++ ',' :: t.2.2.data) := by
  have : (renderTriple t).data = t.1.data ++ [','] ++ t.2.1.data ++ [','] ++ t.2.2.data := by
    simp [renderTriple, String.data_append]
  rw [this]
  simp

lemma renderTriple_ne_empty (t : Triple) : renderTriple t ≠ "" := by
  intro h
  have := congrArg String.data h
  rw [renderTriple_data] at this
  simp at this

lemma renderTriple_no_newline (t : Triple) (h : tripleOk t) :
    '\n' ∉ (renderTriple t).data := by
  obtain ⟨⟨_, h1⟩, ⟨_, h2⟩, ⟨_, h3⟩⟩ := h
  rw [renderTriple_data]
  simp only [List.mem_append, List.mem_cons]
  rintro (hc | hc | hc | hc)
  · exact h1 hc
  · exact absurd hc.symm (by decide)
  · exact h2 hc
  · rcases hc with hc | hc
    · exact absurd hc.symm (by decide)
    · exact h3 hc

lemma parse_render (t : Triple) (h : tripleOk t) :
    parse_failed_line (renderTriple t) = .ok t := by
  obtain ⟨⟨h1, _⟩, ⟨h2, _⟩, ⟨h3, _⟩⟩ := h
  have hsplit : (renderTriple t).data.splitOn ','
      = [t.1.data, t.2.1.data, t.2.2.data] := by
    rw [renderTriple_data, ← intercalate_char_three]
    refine List.splitOn_intercalate _ ',' ?_ (by simp)
    intro l hl
    simp only [List.mem_cons, List.not_mem_nil] at hl
    rcases hl with rfl | rfl | rfl | hfalse
    · exact h1
    · exact h2
    · exact h3
    · simp at hfalse
  rw [parse_failed_line, pySplitChar, hsplit]
  simp [string_mk_data]

lemma exceptMapM_map_ok {α β : Type} (f : α → Except PyError β) (r : β → α) (l : List β)
    (h : ∀ t ∈ l, f (r t) = .ok t) : exceptMapM f (l.map r) = .ok l := by
  induction l with
  | nil => rfl
  | cons t rest ih =>
    simp only [List.map_cons, exceptMapM]
    rw [h t (by simp), ih fun x hx => h x (by simp [hx])]

lemma get_failed_list_roundtrip (F : List Triple)
    (hok : ∀ t ∈ F, tripleOk t) :
    _get_failed_list (some (ledgerContent F)) = .ok (some F) := by
  have hlines : pySplitlines (ledgerContent F) = F.map renderTriple := by
    rw [ledgerContent]
    refine pySplitlines_join _ ?_ ?_
    · intro l hl
      obtain ⟨t, _, rfl⟩ := List.mem_map.mp hl
      exact renderTriple_ne_empty t
    · intro l hl
      obtain ⟨t, ht, rfl⟩ := List.mem_map.mp hl
      exact renderTriple_no_newline t (hok t ht)
  rw [_get_failed_list, hlines,
    exceptMapM_map_ok parse_failed_line renderTriple F fun t ht => parse_render t (hok t ht)]

end RoundTripLemmas

/-- C1: with an empty exclusion list, `_creat_mapping` returns exactly the
full cross product of the m grid files and n ligand files, in nested
iteration order (all pairs of grid i before any pair of grid i+1; within one
grid, ligand j before ligand j+1), hence m*n pairs; when either input list
is empty the result is the empty mapping and no error is raised. -/
theorem claim_C1_full_cross_product (G : List GridFile) (L : List LigandFile)
    (failed : Option (List Triple)) (hfailed : failed = none ∨ failed = some []) :
    _creat_mapping G L failed = crossMapping G L ∧
    (_creat_mapping G L failed).length = G.length * L.length ∧
    (∀ i j (hi : i < G.length) (hj : j < L.length),
      (_creat_mapping G L failed).get? (i * L.length + j)
        = some (G.get ⟨i, hi⟩, L.get ⟨j, hj⟩)) ∧
    ((G = [] ∨ L = []) → _creat_mapping G L failed = []) := by
  have hbase : _creat_mapping G L failed = crossMapping G L := by
    rcases hfailed with rfl | rfl
    · rw [creat_mapping_none_eq, creat_mapping_empty_excl]
    · rw [creat_mapping_empty_excl]
  refine ⟨hbase, ?_, ?_, ?_⟩
  · rw [hbase, crossMapping_length]
  · intro i j hi hj
    rw [hbase]
    exact crossMapping_get? G L i j hi hj
  · rintro (rfl | rfl) <;> rw [hbase] <;> simp [crossMapping]

/-- Witness for C1 at the spec scenario: 2 grids, 3 ligands, empty exclusion:
the mapping is the cross product and entry 1*3+2 is the pair (grid 2, ligand C). -/
theorem claim_C1_witness :
    _creat_mapping [⟨"R1", "L1", "g1"⟩, ⟨"R2", "L2", "g2"⟩]
        [⟨"A", "a"⟩, ⟨"B", "b"⟩, ⟨"C", "c"⟩] none
      = crossMapping [⟨"R1", "L1", "g1"⟩, ⟨"R2", "L2", "g2"⟩]
        [⟨"A", "a"⟩, ⟨"B", "b"⟩, ⟨"C", "c"⟩] ∧
    (_creat_mapping [⟨"R1", "L1", "g1"⟩, ⟨"R2", "L2", "g2"⟩]
        [⟨"A", "a"⟩, ⟨"B", "b"⟩, ⟨"C", "c"⟩] none).get? (1 * 3 + 2)
      = some (⟨"R2", "L2", "g2"⟩, ⟨"C", "c"⟩) :=
  ⟨(claim_C1_full_cross_product _ _ none (Or.inl rfl)).1,
   (claim_C1_full_cross_product _ _ none (Or.inl rfl)).2.2.1 1 2 (by decide) (by decide)⟩

/-- C2: for every exclusion list E, the built mapping contains exactly the
cross-product pairs whose key triple is not in E (membership by exact triple
equality); its size is m*n minus the number of cross-product key positions
whose key occurs in E; and no returned pair's key triple is in E. -/
theorem claim_C2_exclusion (G : List GridFile) (L : List LigandFile) (E : List Triple) :
    (∀ g l, (g, l) ∈ _creat_mapping G L (some E)
        ↔ (g ∈ G ∧ l ∈ L ∧ mappingKey g l ∉ E)) ∧
    (_creat_mapping G L (some E)).length
        + (crossKeys G L).countP (fun k => decide (k ∈ E)) = G.length * L.length ∧
    (_creat_mapping G L (some E)).length
        = G.length * L.length - (crossKeys G L).countP (fun k => decide (k ∈ E)) ∧
    (∀ p ∈ _creat_mapping G L (some E), mappingKey p.1 p.2 ∉ E) := by
  refine ⟨fun g l => creat_mapping_mem G L E g l, creat_mapping_length_add G L E, ?_, ?_⟩
  · have := creat_mapping_length_add G L E
    omega
  · intro p hp
    obtain ⟨g, l⟩ := p
    exact ((creat_mapping_mem G L E g l).mp hp).2.2

/-- Witness for C2: with the exclusion list containing the key of grid R2 and
ligand C, the pair (R2-grid, A-ligand) the mapping does return has a key
triple outside the exclusion list. -/
theorem claim_C2_witness :
    mappingKey ⟨"R2", "L2", "g2"⟩ ⟨"A", "a"⟩ ∉ [(("R2", "L2", "C") : Triple)] :=
  (claim_C2_exclusion [⟨"R1", "L1", "g1"⟩, ⟨"R2", "L2", "g2"⟩]
      [⟨"A", "a"⟩, ⟨"B", "b"⟩, ⟨"C", "c"⟩] [("R2", "L2", "C")]).2.2.2
    (⟨"R2", "L2", "g2"⟩, ⟨"A", "a"⟩) (by decide)

/-- C3: after a docking batch, the newly failed set is exactly the set
difference between the rendered key triples of the submitted mapping entries
and those of the returned dock results; when non-empty it is written to the
ledger slot of the used precision as a fresh overwrite of exactly this set
(whatever the prior content), and when empty no ledger is touched. -/
theorem claim_C3_reconciliation (mapping : List (GridFile × LigandFile))
    (dock_file_list : List DockResultFile)
    (ledgers : String → Option (Finset String)) (precision : String) :
    (∀ s, s ∈ docking_failed_list mapping dock_file_list
        ↔ ((∃ e ∈ mapping, renderMappingItem e = s)
            ∧ ∀ r ∈ dock_file_list, renderDockResult r ≠ s)) ∧
    (docking_failed_list mapping dock_file_list ≠ ∅ →
        ledger_after_multi_dock ledgers precision mapping dock_file_list precision
          = some (docking_failed_list mapping dock_file_list)) ∧
    (docking_failed_list mapping dock_file_list = ∅ →
        ledger_after_multi_dock ledgers precision mapping dock_file_list = ledgers) := by
  refine ⟨?_, ?_, ?_⟩
  · intro s
    simp only [docking_failed_list, Finset.mem_sdiff, List.mem_toFinset, List.mem_map]
    constructor
    · rintro ⟨⟨e, he, rfl⟩, hnot⟩
      exact ⟨⟨e, he, rfl⟩, fun r hr hEq => hnot ⟨r, hr, hEq⟩⟩
    · rintro ⟨⟨e, he, rfl⟩, hall⟩
      refine ⟨⟨e, he, rfl⟩, ?_⟩
      rintro ⟨r, hr, hEq⟩
      exact hall r hr hEq
  · intro hne
    simp [ledger_after_multi_dock, hne]
  · intro heq
    simp [ledger_after_multi_dock, heq]

/-- Witness for C3: one submitted pair, no dock results: the failed set is
non-empty and the SP ledger is overwritten with exactly it. -/
theorem claim_C3_witness :
    ledger_after_multi_dock (fun _ => none) "SP"
        [(⟨"R2", "L2", "g2"⟩, ⟨"C", "c"⟩)] [] "SP"
      = some (docking_failed_list [(⟨"R2", "L2", "g2"⟩, ⟨"C", "c"⟩)] []) :=
  (claim_C3_reconciliation [(⟨"R2", "L2", "g2"⟩, ⟨"C", "c"⟩)] [] (fun _ => none) "SP").2.1
    (by decide)

/-- C4: a failure set written by reconciliation as one comma-separated
`receptor_id,internal_ligand_id,ligand_name` line per record (fields free of
commas and newlines) is parsed back by a later ledger load into the same
list of triples, and a recorded pair is omitted from the next mapping built
with that ledger loaded. -/
theorem claim_C4_ledger_roundtrip (F : List Triple) (G : List GridFile) (L : List LigandFile)
    (hok : ∀ t ∈ F, tripleOk t) :
    _get_failed_list (some (ledgerContent F)) = .ok (some F) ∧
    (∀ g l, g ∈ G → l ∈ L → mappingKey g l ∈ F → (g, l) ∉ _creat_mapping G L (some F)) := by
  refine ⟨get_failed_list_roundtrip F hok, ?_⟩
  intro g l _ _ hmem hin
  exact ((creat_mapping_mem G L F g l).mp hin).2.2 hmem

/-- Witness for C4 at the spec scenario: the ledger line R2,L2,C parses back
to the recorded triple, and the pair (R2-grid, C-ligand) is omitted from the
rebuilt mapping. -/
theorem claim_C4_witness :
    _get_failed_list (some (ledgerContent [("R2", "L2", "C")]))
      = .ok (some [("R2", "L2", "C")]) ∧
    (⟨"R2", "L2", "g2"⟩, ⟨"C", "c"⟩)
      ∉ _creat_mapping [⟨"R1", "L1", "g1"⟩, ⟨"R2", "L2", "g2"⟩]
          [⟨"A", "a"⟩, ⟨"B", "b"⟩, ⟨"C", "c"⟩] (some [("R2", "L2", "C")]) :=
  ⟨(claim_C4_ledger_roundtrip [("R2", "L2", "C")] [] [] (by decide)).1,
   (claim_C4_ledger_roundtrip [("R2", "L2", "C")]
       [⟨"R1", "L1", "g1"⟩, ⟨"R2", "L2", "g2"⟩]
       [⟨"A", "a"⟩, ⟨"B", "b"⟩, ⟨"C", "c"⟩] (by decide)).2
     ⟨"R2", "L2", "g2"⟩ ⟨"C", "c"⟩ (by decide) (by decide) (by decide)⟩

/-- C5 counterexample: loading the ledger when no file exists returns the
Python value None (modelled `.ok none`), which is not the empty set of
failure records (`.ok (some [])`). -/
theorem claim_C5_counterexample :
    _get_failed_list none = .ok none ∧
    _get_failed_list none ≠ .ok (some ([] : List Triple)) := by
  constructor
  · rfl
  · intro h
    simp [_get_failed_list] at h

/-- C5 as amended: loading the ledger for a precision with no ledger file is
not an error but returns None rather than the empty set; the mapping builder
normalises that None to the empty exclusion list, so building a mapping with
a missing ledger behaves as if the failure set were empty. -/
theorem claim_C5_missing_ledger (G : List GridFile) (L : List LigandFile) :
    _get_failed_list none = .ok none ∧
    _creat_mapping G L none = _creat_mapping G L (some []) :=
  ⟨rfl, creat_mapping_none_eq G L⟩

/-- C6: every item whose operation fails (an exception or the per-item
timeout, both surfacing as the error case) is dropped from the returned
result list without aborting the batch: the runner returns exactly
len(items) - |failures| results, none of which comes from a failing item;
every failure is logged at debug level, and the completed count still
reaches len(items). -/
theorem claim_C6_runner_isolation {α β : Type} (op : α → Except String β) (items : List α) :
    (multiprocssing_run op items).1.length
        = items.length - items.countP (fun a => !(op a).isOk) ∧
    (multiprocssing_run op items).2.1 = items.length ∧
    (multiprocssing_run op items).2.2.length = items.countP (fun a => !(op a).isOk) ∧
    (∀ b ∈ (multiprocssing_run op items).1, ∃ a ∈ items, op a = .ok b) ∧
    (∀ a ∈ items, ∀ e, op a = .error e → e ∈ (multiprocssing_run op items).2.2) := by
  rw [multiprocssing_run_eq]
  refine ⟨?_, rfl, runFailures_length op items, ?_, ?_⟩
  · rw [runSuccesses_length]
    have := countP_isOk_add op items
    omega
  · intro b hb
    simp only [runSuccesses, List.mem_filterMap] at hb
    obtain ⟨a, ha, hopt⟩ := hb
    refine ⟨a, ha, ?_⟩
    cases hop : op a with
    | ok v =>
      rw [hop, except_toOption_ok] at hopt
      rw [Option.some.injEq] at hopt
      rw [hopt]
    | error e =>
      rw [hop, except_toOption_error] at hopt
      exact absurd hopt (by simp)
  · intro a ha e hop
    simp only [runFailures, List.mem_filterMap]
    exact ⟨a, ha, by rw [hop]⟩

/-- Witness for C6: the operation failing on the odd item 1 gets its
exception message into the debug log. -/
theorem claim_C6_witness :
    ("boom" : String)
      ∈ (multiprocssing_run
          (fun n => if n % 2 = 0 then Except.ok n else Except.error "boom")
          [1, 2, 3]).2.2 :=
  (claim_C6_runner_isolation
      (fun n => if n % 2 = 0 then Except.ok n else Except.error "boom") [1, 2, 3]).2.2.2.2
    1 (by decide) "boom" (by simp)

/-- C7 (code bug): in the console state reached after minimisation, grid
generation and ligand splitting but before creat_mapping, calling multi_dock
raises TypeError from the debug-logging line that computes
`len(self.grid_file_list) * len(self.ligand_file_list)` (ensemble.py line
304), so the RuntimeError guard naming creat_mapping (lines 309-310) is
never reached. -/
theorem claim_C7_guard_bug :
    multi_dock
      { pairs_list := [("3OAP", "9CR")],
        minimized_file_list := some ["minimize/3OAP.mae"],
        grid_file_list := some [⟨"3OAP", "9CR", "grid/3OAP.zip"⟩],
        ligand_path_list := some ["ligands/0-FX11.mae"],
        ligand_file_list := none,
        mapping := none,
        dock_file_list := none }
      [] (fun _ => none) "SP"
      = .error (.typeError "object of type NoneType has no len") := rfl

lemma label_line_data (k : Nat) (st : PyStructure) :
    (st_name k st ++ "," ++ st_activity st).data
      = (pyStr k).data ++ '-' :: (st.s_m_title.data ++ ',' :: (st_activity st).data) := by
  simp [st_name, String.data_append]

lemma label_line_ne_empty (k : Nat) (st : PyStructure) :
    st_name k st ++ "," ++ st_activity st ≠ "" := by
  intro h
  have := congrArg String.data h
  rw [label_line_data] at this
  simp at this

lemma label_line_no_newline (k : Nat) (st : PyStructure)
    (ht : '\n' ∉ st.s_m_title.data) (ha : '\n' ∉ (st_activity st).data) :
    '\n' ∉ (st_name k st ++ "," ++ st_activity st).data := by
  rw [label_line_data]
  simp only [List.mem_append, List.mem_cons]
  rintro (hc | hc | hc | hc)
  · have := pyStr_digits k _ hc
    simp at this
  · exact absurd hc.symm (by decide)
  · exact ht hc
  · rcases hc with hc | hc
    · exact absurd hc.symm (by decide)
    · exact ha hc

lemma label_lines_ok (k : Nat) (sts : List PyStructure)
    (h : ∀ st ∈ sts, '\n' ∉ st.s_m_title.data ∧ '\n' ∉ (st_activity st).data) :
    ∀ line ∈ label_list_from k sts, line ≠ "" ∧ '\n' ∉ line.data := by
  induction sts generalizing k with
  | nil => intro line hl; simp [label_list_from] at hl
  | cons st rest ih =>
    intro line hl
    simp only [label_list_from, List.mem_cons] at hl
    rcases hl with rfl | hl
    · obtain ⟨ht, ha⟩ := h st (by simp)
      exact ⟨label_line_ne_empty k st, label_line_no_newline k st ht ha⟩
    · exact ih (k + 1) (fun s hs => h s (by simp [hs])) line hl

/-- C8: splitting a multi-structure ligand file labels the structure at
position i with `{i}-{original_title}`; the labels of one run are pairwise
distinct even when original titles repeat; and label.csv holds exactly one
`structure_label,activity_value` line per structure. -/
theorem claim_C8_split_labels (sts : List PyStructure) :
    (label_list sts).length = sts.length ∧
    (∀ i st, sts.get? i = some st →
        (label_list sts).get? i = some (st_name i st ++ "," ++ st_activity st)) ∧
    (run_labels sts).Nodup ∧
    ((∀ st ∈ sts, '\n' ∉ st.s_m_title.data ∧ '\n' ∉ (st_activity st).data) →
        pySplitlines (label_csv sts) = label_list sts) := by
  refine ⟨label_list_from_length 0 sts, ?_, run_labels_from_nodup 0 sts, ?_⟩
  · intro i st h
    have := label_list_from_get? 0 i sts st h
    simpa using this
  · intro hok
    rw [label_csv, label_list]
    refine pySplitlines_join _ ?_ ?_
    · exact fun line hl => (label_lines_ok 0 sts hok line hl).1
    · exact fun line hl => (label_lines_ok 0 sts hok line hl).2

/-- Witness for C8: two structures with the same title "lig" get the
distinct labels 0-lig and 1-lig, and label.csv splits back into one line
per structure. -/
theorem claim_C8_witness :
    pySplitlines (label_csv [⟨"lig", []⟩, ⟨"lig", [("b_user_Activity", "1.5")]⟩])
      = label_list [⟨"lig", []⟩, ⟨"lig", [("b_user_Activity", "1.5")]⟩] :=
  (claim_C8_split_labels [⟨"lig", []⟩, ⟨"lig", [("b_user_Activity", "1.5")]⟩]).2.2.2
    (by decide)

/-- C9 counterexample: with 6 logical cores the code computes
`6 // 4 * 3 = 3` workers, while 3/4 of 6 cores is 4 (rounding down), so the
default worker count is not 3/4 of the logical core count for every count. -/
theorem claim_C9_counterexample :
    NUM_PARALLEL_of 6 = 3 ∧ 3 * 6 / 4 = 4 ∧ ¬ NUM_PARALLEL_of 6 = 3 * 6 / 4 := by
  decide

/-- C9 as amended: the default worker count is `cpu_count // 4 * 3`; in
exact arithmetic (comparing 4 times the count against 3 times the cores) it
equals 3/4 of the logical cores exactly when the core count is divisible by
4, and is strictly smaller than 3/4 of the cores otherwise (e.g. 3 instead
of 4.5 for 6 cores, and 0 for fewer than 4 cores). -/
theorem claim_C9_num_parallel (cpu_count : Nat) :
    NUM_PARALLEL_of cpu_count = cpu_count / 4 * 3 ∧
    (cpu_count % 4 = 0 → 4 * NUM_PARALLEL_of cpu_count = 3 * cpu_count) ∧
    (cpu_count % 4 ≠ 0 → 4 * NUM_PARALLEL_of cpu_count < 3 * cpu_count) :=
  ⟨rfl, fun h => by unfold NUM_PARALLEL_of; omega, fun h => by unfold NUM_PARALLEL_of; omega⟩

/-- Witness for C9: at 8 cores the default worker count is exactly 3/4 of
the cores, and at 6 cores it is strictly below 3/4 of the cores. -/
theorem claim_C9_witness :
    4 * NUM_PARALLEL_of 8 = 3 * 8 ∧ 4 * NUM_PARALLEL_of 6 < 3 * 6 :=
  ⟨(claim_C9_num_parallel 8).2.1 (by decide), (claim_C9_num_parallel 6).2.2 (by decide)⟩

/-- C10: when no in-memory dock result list is present and no ledger file
exists for the requested precision, rebuilding the dock file list in
multi_extract_data tests key triples for membership in the None returned by
the ledger load and raises TypeError, instead of treating the missing
ledger as an empty failure set. -/
theorem claim_C10_extract_type_error (st : ConsoleState) (base_dock_save_dir precision : String)
    (lp : List String) (p0 : String × String) (prs : List (String × String))
    (hdock : st.dock_file_list = none)
    (hlig : st.ligand_path_list = some lp)
    (hlp : lp ≠ [])
    (hpairs : st.pairs_list = p0 :: prs) :
    multi_extract_data st none base_dock_save_dir precision
      = .error (.typeError "argument of type NoneType is not iterable") := by
  obtain ⟨l0, lrest, rfl⟩ : ∃ l0 lrest, lp = l0 :: lrest := by
    cases lp with
    | nil => exact absurd rfl hlp
    | cons a b => exact ⟨a, b, rfl⟩
  have hbind : ∀ {β : Type} (f : List String → Except PyError β),
      ((Except.error (PyError.typeError "argument of type NoneType is not iterable") :
        Except PyError (List String)) >>= f)
        = Except.error (PyError.typeError "argument of type NoneType is not iterable") :=
    fun _ => rfl
  simp [multi_extract_data, hdock, hlig, hpairs, _get_failed_list, List.foldlM_cons, hbind]

/-- Witness for C10: a console state with one receptor pair and one split
ligand, no dock results in memory and no SP ledger file. -/
theorem claim_C10_witness :
    multi_extract_data
      { pairs_list := [("3OAP", "9CR")],
        minimized_file_list := some ["minimize/3OAP.mae"],
        grid_file_list := some [⟨"3OAP", "9CR", "grid/3OAP.zip"⟩],
        ligand_path_list := some ["ligands/0-FX11.mae"],
        ligand_file_list := none,
        mapping := none,
        dock_file_list := none }
      none "dockfiles" "SP"
      = .error (.typeError "argument of type NoneType is not iterable") :=
  claim_C10_extract_type_error _ "dockfiles" "SP" ["ligands/0-FX11.mae"]
    ("3OAP", "9CR") [] rfl rfl (by decide) rfl

end PyCADD
